import Mathlib

/-!
Verification development for the Weekly_MONITORING press-review pipeline
(Auto_Data4.py, Auto-monitoring-cloud.py): a shallow embedding of the
column-resolution, validation, transformation, summarization and rendering
code, together with theorems settling the specification claims.
-/

set_option maxRecDepth 4000

/-- A calendar date as produced by the date parser (time components are never
used by the pipeline). -/
structure DateTime where
  year : Nat
  month : Nat
  day : Nat
deriving DecidableEq

/-- One spreadsheet cell value: the pandas missing marker NaN, the Python
None object, a text value, or a parsed datetime (the latter appears only in
the internal parsed-date column). -/
inductive Cell where
  | na
  | pynone
  | str (s : String)
  | date (d : DateTime)
deriving DecidableEq

/-- Python str() of a cell: NaN stringifies to the text nan, None to the
text None. -/
def toPyStr : Cell → String
  | Cell.na => "nan"
  | Cell.pynone => "None"
  | Cell.str s => s
  | Cell.date d =>
      toString d.year ++ "-" ++ toString d.month ++ "-" ++ toString d.day ++ " 00:00:00"

/-- Python truthiness of a cell: NaN is truthy, None is falsy, a string is
truthy iff non-empty, a datetime is truthy. -/
def pyTruthy : Cell → Bool
  | Cell.na => true
  | Cell.pynone => false
  | Cell.str s => s ≠ ""
  | Cell.date _ => true

/-- pandas pd.isna: true on NaN and on None. -/
def pd_isna : Cell → Bool
  | Cell.na => true
  | Cell.pynone => true
  | _ => false

/-- Python str.strip() (whitespace trimming), computed on the character
list so that it evaluates inside the kernel. -/
def pyStrip (s : String) : String :=
  ⟨((s.data.dropWhile Char.isWhitespace).reverse.dropWhile Char.isWhitespace).reverse⟩

/-- Python str.lower() on one character: ASCII letters and the precomposed
accented Latin capitals that occur in French headers. -/
def pyLowerChar (c : Char) : Char :=
  match c with
  | 'À' => 'à' | 'Â' => 'â' | 'Ä' => 'ä'
  | 'É' => 'é' | 'È' => 'è' | 'Ê' => 'ê' | 'Ë' => 'ë'
  | 'Î' => 'î' | 'Ï' => 'ï'
  | 'Ô' => 'ô' | 'Ö' => 'ö'
  | 'Ù' => 'ù' | 'Û' => 'û' | 'Ü' => 'ü'
  | 'Ç' => 'ç'
  | _ => c.toLower

/-- Python str.lower(). -/
def pyLower (s : String) : String := ⟨s.data.map pyLowerChar⟩

/-- Modelled behavior of unicodedata: NFD decomposition followed by dropping
category-Mn characters, restricted to the precomposed Latin letters that
occur in the headers and candidate lists of this repository; a standalone
combining acute accent is dropped, every other character is kept. -/
def nfdDropMarks (c : Char) : Option Char :=
  match c with
  | 'à' | 'â' | 'ä' => Option.some 'a'
  | 'é' | 'è' | 'ê' | 'ë' => Option.some 'e'
  | 'î' | 'ï' => Option.some 'i'
  | 'ô' | 'ö' => Option.some 'o'
  | 'ù' | 'û' | 'ü' => Option.some 'u'
  | 'ç' => Option.some 'c'
  | 'À' | 'Â' | 'Ä' => Option.some 'A'
  | 'É' | 'È' | 'Ê' | 'Ë' => Option.some 'E'
  | 'Î' | 'Ï' => Option.some 'I'
  | 'Ô' | 'Ö' => Option.some 'O'
  | 'Ù' | 'Û' | 'Ü' => Option.some 'U'
  | 'Ç' => Option.some 'C'
  | '́' | '̀' | '̂' | '̈' | '̧' => Option.none
  | c => Option.some c

/-- A spreadsheet row: an association list from header text to cell value. -/
abbrev Row := List (String × Cell)

/-- pandas Series.get with a default: first binding of the key wins. -/
def Row.get : Row → String → Cell → Cell
  | [], _, d => d
  | (k2, v) :: rest, k, d => if k2 = k then v else Row.get rest k d

/-- Setting a column value in one row: replaces the binding if the key is
present, otherwise appends it. -/
def Row.set : Row → String → Cell → Row
  | [], k, v => [(k, v)]
  | (k2, v2) :: rest, k, v =>
      if k2 = k then (k, v) :: rest else (k2, v2) :: Row.set rest k v

/-- A pandas DataFrame: ordered headers plus rows (with a default
RangeIndex, so row labels are the positions 0, 1, ...). -/
structure DataFrame where
  cols : List String
  rows : List Row
deriving DecidableEq

/-- pandas DataFrame.copy(): a value copy. -/
def DataFrame.copy (df : DataFrame) : DataFrame := df

/-- Python enumerate starting at i. -/
def pyEnumFrom (i : Nat) : List α → List (Nat × α)
  | [] => []
  | a :: rest => (i, a) :: pyEnumFrom (i + 1) rest

/-- Index-value pairs of a column or list, as Series.items() yields them. -/
def pyEnum (l : List α) : List (Nat × α) := pyEnumFrom 0 l

/-- Column assignment df[c] = vals (vals aligned positionally). -/
def DataFrame.setCol (df : DataFrame) (c : String) (vals : List Cell) : DataFrame :=
  { cols := if df.cols.contains c then df.cols else df.cols ++ [c],
    rows := List.zipWith (fun r v => Row.set r c v) df.rows vals }

/-- The dict comprehension mapping a normalized header to its original
header: later duplicates overwrite earlier ones, so lookup returns the
last header with the given normal form. -/
def dictLookupLast (norm : String → String) : List String → String → Option String
  | [], _ => Option.none
  | c :: rest, k =>
      match dictLookupLast norm rest k with
      | Option.some h => Option.some h
      | Option.none => if norm c = k then Option.some c else Option.none

/-- Python str.join. -/
def pyJoin (sep : String) : List String → String
  | [] => ""
  | [s] => s
  | s :: rest => s ++ sep ++ pyJoin sep rest

/-- Python repr of a list of strings, as an f-string renders it. -/
def pyReprStrList (l : List String) : String :=
  "[" ++ pyJoin ", " (l.map (fun s => "\x27" ++ s ++ "\x27")) ++ "]"

/-- Python repr of a list of ints, as an f-string renders it. -/
def pyReprNatList (l : List Nat) : String :=
  "[" ++ pyJoin ", " (l.map toString) ++ "]"

/-- Maximal decimal-digit runs of a character list, as value-length pairs. -/
def digitRunsAux : List Char → Option (Nat × Nat) → List (Nat × Nat)
  | [], Option.none => []
  | [], Option.some t => [t]
  | c :: rest, acc =>
      if c.isDigit then
        match acc with
        | Option.some (v, l) =>
            digitRunsAux rest (Option.some (v * 10 + (c.toNat - 48), l + 1))
        | Option.none => digitRunsAux rest (Option.some (c.toNat - 48, 1))
      else
        match acc with
        | Option.some t => t :: digitRunsAux rest Option.none
        | Option.none => digitRunsAux rest Option.none

def digitRuns (s : String) : List (Nat × Nat) := digitRunsAux s.data Option.none

def isLeapYear (y : Nat) : Bool :=
  (y % 4 = 0 ∧ y % 100 ≠ 0) ∨ y % 400 = 0

def daysInMonth (y m : Nat) : Nat :=
  if m = 2 then (if isLeapYear y then 29 else 28)
  else if m = 4 ∨ m = 6 ∨ m = 9 ∨ m = 11 then 30
  else 31

/-- dateutil century completion for a two-digit year. -/
def convertYear (y : Nat) : Nat :=
  if y < 100 then (if y < 50 then y + 2000 else y + 1900) else y

def mkValidDate (y m d : Nat) : Option DateTime :=
  let y := convertYear y
  if 1 ≤ m ∧ m ≤ 12 ∧ 1 ≤ d ∧ d ≤ daysInMonth y m then
    Option.some ⟨y, m, d⟩
  else
    Option.none

/-- Modelled behavior of dateutil resolve_ymd for three numeric tokens with
dayfirst true, yearfirst false and no month-name token, following the
branch structure of the library source: a leading token greater than 31 or
longer than two digits is the year, and dayfirst then reads the remaining
tokens as day before month whenever the trailing token can be a month;
otherwise the day-first reading day, month, year is preferred. -/
def resolve_ymd (a la b c : Nat) : Option DateTime :=
  if a > 31 ∨ la > 2 then
    if c ≤ 12 then mkValidDate a c b else mkValidDate a b c
  else if a > 12 ∨ b ≤ 12 then
    mkValidDate c b a
  else
    mkValidDate c a b

/-- Modelled behavior of the external dateutil parser.parse with
dayfirst=True and fuzzy=True, restricted to inputs whose usable date
content is exactly three numeric tokens (the only shapes this pipeline is
verified on); any other shape is treated as a parse failure. -/
def dateutil_parse (s : String) : Option DateTime :=
  match digitRuns s with
  | [(a, la), (b, _), (c, _)] => resolve_ymd a la b c
  | _ => Option.none

/-- Modelled behavior of the external validators.url syntax check: accepts
scheme://host paths where the scheme is http, https or ftp, the host is a
nonempty dotted name of letters, digits, dots and hyphens, and the string
holds no space. -/
def validators_url (s : String) : Bool :=
  let core : Option (List Char) :=
    if "https://".data.isPrefixOf s.data then Option.some (s.data.drop 8)
    else if "http://".data.isPrefixOf s.data then Option.some (s.data.drop 7)
    else if "ftp://".data.isPrefixOf s.data then Option.some (s.data.drop 6)
    else Option.none
  match core with
  | Option.none => false
  | Option.some rest =>
      let host := rest.takeWhile (fun c => c ≠ '/')
      !host.isEmpty && host.all (fun c => c.isAlphanum || c = '.' || c = '-')
        && host.any (fun c => c = '.')
        && s.data.all (fun c => c ≠ ' ')

/-- coerce_date from the source: NaN, None or blank yields none, anything
else is handed to the dateutil parser, with parse failure also none. -/
def coerce_date (x : Cell) : Option DateTime :=
  if pd_isna x ∨ pyStrip (toPyStr x) = "" then Option.none
  else dateutil_parse (toPyStr x)

/-- strftime zero-padded two-digit field. -/
def pad2 (n : Nat) : String :=
  if n < 10 then "0" ++ toString n else toString n

/-- strftime with format DD/MM/YYYY. -/
def strftime_dmy (d : DateTime) : String :=
  pad2 d.day ++ "/" ++ pad2 d.month ++ "/" ++ toString d.year

/-- Python truthiness of an optional string (None or a string). -/
def pyTruthyOptStr : Option String → Bool
  | Option.none => false
  | Option.some s => s ≠ ""

/-- Lookup in an insertion-ordered string dict (keys are unique). -/
def lookupKey : List (String × String) → String → Option String
  | [], _ => Option.none
  | (k2, v) :: rest, k => if k2 = k then Option.some v else lookupKey rest k

/-- Result of validate_dataframe: the issue list, the resolved mandatory
schema (None on short-circuit), and the optional content and title
headers. -/
structure VOut where
  issues : List String
  col_map : Option (List (String × String))
  content_col : Option String
  title_col : Option String
deriving DecidableEq

instance [DecidableEq ε] [DecidableEq α] : DecidableEq (Except ε α)
  | Except.ok a, Except.ok b =>
      if h : a = b then Decidable.isTrue (by rw [h])
      else Decidable.isFalse (by intro he; cases he; exact h rfl)
  | Except.ok _, Except.error _ => Decidable.isFalse (by intro he; cases he)
  | Except.error _, Except.ok _ => Decidable.isFalse (by intro he; cases he)
  | Except.error a, Except.error b =>
      if h : a = b then Decidable.isTrue (by rw [h])
      else Decidable.isFalse (by intro he; cases he; exact h rfl)

/-- The cell stored in the internal parsed-date column: a datetime on
success, the Python None object on parse failure. -/
def parsedCell (x : Cell) : Cell :=
  match coerce_date x with
  | Option.some d => Cell.date d
  | Option.none => Cell.pynone

namespace AutoData4

def REQUIRED_COLS : List (String × List String) :=
  [("publication", ["media outlet", "publication", "media"]),
   ("published", ["published", "date", "publication_date"]),
   ("URL", ["url", "lien", "link"])]

def CONTENT_CANDIDATES : List String :=
  ["snippet", "content", "texte", "text", "body", "résumé", "summary"]

def TITLE_CANDIDATES : List String := ["article", "titre", "title"]

/-- find_col of Auto_Data4.py: headers and candidates are compared after
lower-casing only (no trimming, no diacritic stripping). -/
def find_col (cols : List String) (candidates : List String) : Option String :=
  candidates.findSome? (fun cand => dictLookupLast pyLower cols (pyLower cand))

def missingColMsg (logical : String) (names : List String) : String :=
  "Colonne requise manquante : " ++ logical ++ " (attendu parmi "
    ++ pyReprStrList names ++ ")"

def warnContentMsg : String :=
  "⚠️ Pas de colonne de contenu trouvée (résumés plus pauvres)."

def warnTitleMsg : String := "⚠️ Pas de colonne de titre trouvée."

def emptyPubMsg (n : Nat) (pub_col : String) : String :=
  toString n ++ " ligne(s) avec \x27" ++ pub_col ++ "\x27 vide."

def invalidUrlMsg (l : List Nat) : String :=
  "URLs invalides aux lignes " ++ pyReprNatList l

/-- The first loop of validate_dataframe: collect one missing-column issue
per unresolved mandatory field and the resolved mappings in order. -/
def mandatoryScan (cols : List String) : List String × List (String × String) :=
  REQUIRED_COLS.foldl
    (fun acc p =>
      match find_col cols p.2 with
      | Option.some c =>
          if c = "" then (acc.1 ++ [missingColMsg p.1 p.2], acc.2)
          else (acc.1, acc.2 ++ [(p.1, c)])
      | Option.none => (acc.1 ++ [missingColMsg p.1 p.2], acc.2))
    ([], [])

/-- The row-level checks of validate_dataframe, run once the three
mandatory headers are in hand: attach the parsed-date column to a copy,
count blank publications, and aggregate invalid URL row numbers. -/
def validateTail (df : DataFrame) (issues2 : List String)
    (col_map : List (String × String)) (content_col title_col : Option String)
    (pub_col date_col url_col : String) : VOut :=
  let parsed_dates := df.rows.map (fun r => parsedCell (Row.get r date_col Cell.na))
  let df2 := (df.copy).setCol "_parsed_date" parsed_dates
  let empty_cnt :=
    (df2.rows.filter (fun r => pyStrip (toPyStr (Row.get r pub_col Cell.na)) == "")).length
  let issues3 := issues2 ++ (if empty_cnt = 0 then [] else [emptyPubMsg empty_cnt pub_col])
  let invalid_urls :=
    (pyEnum (df2.rows.map (fun r => Row.get r url_col Cell.na))).filterMap
      (fun p => if pyTruthy p.2 && !validators_url (toPyStr p.2)
                then Option.some (p.1 + 2) else Option.none)
  let issues4 := issues3 ++ (if invalid_urls = [] then [] else [invalidUrlMsg invalid_urls])
  ⟨issues4, Option.some col_map, content_col, title_col⟩

/-- validate_dataframe of Auto_Data4.py.  The short-circuit return fires
only when there are issues and the mandatory map is empty; afterwards the
three dict accesses raise KeyError (modelled as Except.error naming the
key) whenever a mandatory field is missing from the map. -/
def validate_dataframe (df : DataFrame) : Except String VOut :=
  let scan := mandatoryScan df.cols
  let content_col := find_col df.cols CONTENT_CANDIDATES
  let title_col := find_col df.cols TITLE_CANDIDATES
  let issues2 := scan.1
      ++ (if pyTruthyOptStr content_col then [] else [warnContentMsg])
      ++ (if pyTruthyOptStr title_col then [] else [warnTitleMsg])
  if issues2 ≠ [] ∧ scan.2 = [] then
    Except.ok ⟨issues2, Option.none, Option.none, Option.none⟩
  else
    match lookupKey scan.2 "publication" with
    | Option.none => Except.error "publication"
    | Option.some pub_col =>
        match lookupKey scan.2 "published" with
        | Option.none => Except.error "published"
        | Option.some date_col =>
            match lookupKey scan.2 "URL" with
            | Option.none => Except.error "URL"
            | Option.some url_col =>
                Except.ok (validateTail df issues2 scan.2 content_col title_col
                  pub_col date_col url_col)

end AutoData4

/-- A heap of pandas DataFrame objects, for stating frame effects: ids
below next are live. -/
structure PdStore where
  next : Nat
  mem : Nat → DataFrame

/-- In-place mutation of the frame held at id i. -/
def PdStore.write (σ : PdStore) (i : Nat) (df : DataFrame) : PdStore :=
  ⟨σ.next, fun j => if j = i then df else σ.mem j⟩

/-- Allocation of a fresh frame (df.copy() creates a new object). -/
def PdStore.alloc (σ : PdStore) (df : DataFrame) : PdStore × Nat :=
  (⟨σ.next + 1, fun j => if j = σ.next then df else σ.mem j⟩, σ.next)

namespace AutoData4

/-- validate_dataframe with the pandas object store made explicit: the
caller passes the id of its frame; df = df.copy() allocates a new object
and the parsed-date column assignment mutates that copy in place. -/
def validate_dataframe_st (σ : PdStore) (hid : Nat) : PdStore × Except String VOut :=
  let df := σ.mem hid
  let scan := mandatoryScan df.cols
  let content_col := find_col df.cols CONTENT_CANDIDATES
  let title_col := find_col df.cols TITLE_CANDIDATES
  let issues2 := scan.1
      ++ (if pyTruthyOptStr content_col then [] else [warnContentMsg])
      ++ (if pyTruthyOptStr title_col then [] else [warnTitleMsg])
  if issues2 ≠ [] ∧ scan.2 = [] then
    (σ, Except.ok ⟨issues2, Option.none, Option.none, Option.none⟩)
  else
    match lookupKey scan.2 "publication" with
    | Option.none => (σ, Except.error "publication")
    | Option.some pub_col =>
        match lookupKey scan.2 "published" with
        | Option.none => (σ, Except.error "published")
        | Option.some date_col =>
            match lookupKey scan.2 "URL" with
            | Option.none => (σ, Except.error "URL")
            | Option.some url_col =>
                let parsed_dates :=
                  df.rows.map (fun r => parsedCell (Row.get r date_col Cell.na))
                let al := σ.alloc df.copy
                let σ2 := al.1.write al.2 ((al.1.mem al.2).setCol "_parsed_date" parsed_dates)
                (σ2, Except.ok (validateTail df issues2 scan.2 content_col title_col
                  pub_col date_col url_col))

end AutoData4

namespace Cloud

/-- normalize_colname of Auto-monitoring-cloud.py: strip, lower-case, then
NFD-decompose and drop combining marks. -/
def normalize_colname (s : String) : String :=
  ⟨(pyLower (pyStrip s)).data.filterMap nfdDropMarks⟩

/-- find_col of Auto-monitoring-cloud.py: exact match after full
normalization. -/
def find_col (cols : List String) (candidates : List String) : Option String :=
  candidates.findSome?
    (fun cand => dictLookupLast normalize_colname cols (normalize_colname cand))

end Cloud

/-- One output record of the main loop, as appended to rows before
rendering: url is None when the stripped cell text was empty. -/
structure RecOut where
  publication : String
  date : String
  summary : String
  url : Option String
deriving DecidableEq

namespace AutoData4

/-- The per-row values the main loop computes before summarization. -/
structure PreRec where
  publication : String
  url : Option String
  date_out : String
  title_val : String
  content_val : String
deriving DecidableEq

/-- The row-transformation part of the main loop (Auto_Data4.py main):
stringify and strip publication and url (a blank url becomes None), take
the precomputed parsed date if the cell is truthy and a datetime -
otherwise re-parse with coerce_date - and render DD/MM/YYYY or fall back
to the stripped raw text; title falls back to the publication and content
to the empty string when the column is absent. -/
def row_fields (pub_col url_col date_col : String)
    (title_col content_col : Option String) (r : Row) : PreRec :=
  let publication := pyStrip (toPyStr (Row.get r pub_col (Cell.str "")))
  let urlS := pyStrip (toPyStr (Row.get r url_col (Cell.str "")))
  let url := if urlS = "" then Option.none else Option.some urlS
  let pre := Row.get r "_parsed_date" Cell.pynone
  let dt : Option DateTime :=
    if pyTruthy pre then
      (match pre with
       | Cell.date d => Option.some d
       | _ => Option.none)
    else coerce_date (Row.get r date_col Cell.pynone)
  let date_out :=
    match dt with
    | Option.some d => strftime_dmy d
    | Option.none => pyStrip (toPyStr (Row.get r date_col (Cell.str "")))
  let title_val :=
    match title_col with
    | Option.some tc =>
        if tc = "" then publication else pyStrip (toPyStr (Row.get r tc (Cell.str "")))
    | Option.none => publication
  let content_val :=
    match content_col with
    | Option.some cc =>
        if cc = "" then "" else pyStrip (toPyStr (Row.get r cc (Cell.str "")))
    | Option.none => ""
  ⟨publication, url, date_out, title_val, content_val⟩

/-- Python or on two strings: the first operand when truthy (non-empty),
else the second. -/
def pyOrStr (a b : String) : String := if a = "" then b else a

/-- The context selection of smart_summarize, the or-chain
content or title or publication or url or the default phrase (url is an
optional string and None is falsy). -/
def base_context (content title publication : String) (url : Option String) : String :=
  pyOrStr content (pyOrStr title (pyOrStr publication
    (match url with
     | Option.some u => pyOrStr u "Article de presse"
     | Option.none => "Article de presse")))

/-- The prompt smart_summarize sends to the external model. -/
def smart_summarize_prompt (publication title content : String)
    (url : Option String) (max_words : Nat) : String :=
  "Résume cet article de presse en français, de manière claire et concise (max ~"
    ++ toString max_words ++ " mots).\n\nCONTEXTE:\n"
    ++ base_context content title publication url
    ++ "\n\nAttendu: un seul paragraphe, neutre et informatif."

/-- smart_summarize with the external client call passed in: any failure
of the call propagates as an exception. -/
def smart_summarize (call : String → Except String String)
    (publication _date_str title content : String) (url : Option String) :
    Except String String :=
  (call (smart_summarize_prompt publication title content url 60)).map pyStrip

/-- The try/except around smart_summarize in main: on any exception the
summary becomes the title, or the fixed placeholder when the title is
empty. -/
def summarize_with_fallback (call : String → Except String String)
    (pr : PreRec) : String :=
  match smart_summarize call pr.publication pr.date_out pr.title_val pr.content_val pr.url with
  | Except.ok s => s
  | Except.error _ => if pr.title_val = "" then "Résumé indisponible" else pr.title_val

/-- The main loop over the rows of the caller's table: transform, then
summarize with fallback, collecting output records in order. -/
def process_rows (call : String → Except String String)
    (pub_col url_col date_col : String) (title_col content_col : Option String)
    (rows : List Row) : List RecOut :=
  rows.map (fun r =>
    let pr := row_fields pub_col url_col date_col title_col content_col r
    { publication := pr.publication, date := pr.date_out,
      summary := summarize_with_fallback call pr, url := pr.url })

/-- html.escape on one character (with quote=True, the default). -/
def escChar (c : Char) : List Char :=
  if c = '&' then ['&', 'a', 'm', 'p', ';']
  else if c = '<' then ['&', 'l', 't', ';']
  else if c = '>' then ['&', 'g', 't', ';']
  else if c = '"' then ['&', 'q', 'u', 'o', 't', ';']
  else if c = '\x27' then ['&', '#', 'x', '2', '7', ';']
  else [c]

/-- html_escape from the source: html.escape of the stringified value. -/
def html_escape (s : String) : String := ⟨(s.data.map escChar).flatten⟩

/-- The parts build_email_html appends for one record. -/
def cardParts (r : RecOut) : List String :=
  ["<div style=\"margin-bottom:14px;padding:12px;border:1px solid #e6e6e6;border-radius:8px;\">",
   "<div><b>Publication:</b> " ++ html_escape r.publication ++ "</div>",
   "<div><b>Date:</b> " ++ html_escape r.date ++ "</div>",
   "<div><b>Résumé:</b> " ++ html_escape r.summary ++ "</div>"]
  ++ (match r.url with
      | Option.some u =>
          if u = "" then []
          else ["<div><b>Lien:</b> <a href=\"" ++ html_escape u ++ "\">"
                  ++ html_escape u ++ "</a></div>"]
      | Option.none => [])
  ++ ["</div>"]

/-- build_email_html from the source: a heading followed by one bordered
card per record, all user text HTML-escaped, joined with newlines. -/
def build_email_html (rows : List RecOut) (title : String) : String :=
  pyJoin "\n"
    (["<div style=\"font-family:Arial,Helvetica,sans-serif;font-size:14px;line-height:1.45;\">",
      "<h1 style=\"font-size:20px;margin-bottom:16px;\">" ++ html_escape title ++ "</h1>"]
     ++ (rows.map cardParts).flatten
     ++ ["</div>"])

end AutoData4

/-- Substring test on character lists (used to state renderer facts). -/
def hasSub (pat : List Char) : List Char → Bool
  | [] => pat.isEmpty
  | c :: rest => pat.isPrefixOf (c :: rest) || hasSub pat rest

/-- Whether the character < ever occurs immediately followed by s. -/
def noLtS : List Char → Bool
  | a :: b :: rest => !(a == '<' && b == 's') && noLtS (b :: rest)
  | _ => true

/-- Whether the final character is <. -/
def lastIsLt : List Char → Bool
  | [] => false
  | [a] => a == '<'
  | _ :: b :: rest => lastIsLt (b :: rest)

/-- Rendering-safety invariant: no lt-s adjacency and no trailing <. -/
def safeB (l : List Char) : Bool := noLtS l && !lastIsLt l

/-- Refinement companion for C8, following the spec wording: the first
non-empty value among content, title, publication, URL, in that order,
else the fixed default phrase. -/
def spec_context (content title publication : String) (url : Option String) : String :=
  match ([content, title, publication, url.getD ""]).filter (fun s => !(s == "")) with
  | [] => "Article de presse"
  | s :: _ => s

/-- A well-formed sample table: all three mandatory columns resolve. -/
def dfSample : DataFrame :=
  ⟨["media", "date", "url"],
   [[("media", Cell.str "Le Monde"), ("date", Cell.str "01/02/2023"),
     ("url", Cell.str "https://lemonde.fr/x")]]⟩

/-- A table whose mandatory published field is unresolved while the
publication and URL fields resolve. -/
def dfMissingPublished : DataFrame :=
  ⟨["media", "url"],
   [[("media", Cell.str "Le Monde"), ("url", Cell.str "https://lemonde.fr/x")]]⟩

/-- A store holding one live frame, the caller's table, at id 0. -/
def stSample : PdStore := ⟨1, fun _ => dfSample⟩

/-- C1: the claim fails on the code.  In a table where the mandatory
published field has no matching header while publication and URL resolve,
the short-circuit guard (issues and not col_map) does not fire because
col_map is non-empty, and validate_dataframe then evaluates
col_map[published] and raises KeyError instead of returning the collected
issues with schema and optional headers absent. -/
theorem c1_partial_missing_mandatory_raises_keyerror :
    ("published", ["published", "date", "publication_date"]) ∈ AutoData4.REQUIRED_COLS
    ∧ AutoData4.find_col dfMissingPublished.cols ["published", "date", "publication_date"]
        = Option.none
    ∧ AutoData4.validate_dataframe dfMissingPublished = Except.error "published" := by
  decide

/-- C3: the claim fails on the code.  validate computes the parsed-date
column once and attaches it to an internal copy (the frame allocated at
id 1), but the caller's frame at id 0 is unchanged and never gains the
_parsed_date column; main iterates the caller's table, where every lookup
of _parsed_date yields the default None, so the transformer re-parses the
published-date cell with coerce_date a second time. -/
theorem c3_parsed_date_column_never_reaches_main :
    ((AutoData4.validate_dataframe_st stSample 0).1.mem 1).cols
        = ["media", "date", "url", "_parsed_date"]
    ∧ (AutoData4.validate_dataframe_st stSample 0).1.mem 0 = dfSample
    ∧ dfSample.cols.contains "_parsed_date" = false
    ∧ (∀ r ∈ dfSample.rows, Row.get r "_parsed_date" Cell.pynone = Cell.pynone)
    ∧ coerce_date (Cell.str "01/02/2023") = Option.some ⟨2023, 2, 1⟩
    ∧ (AutoData4.row_fields "media" "url" "date" Option.none Option.none
         [("media", Cell.str "Le Monde"), ("date", Cell.str "01/02/2023"),
          ("url", Cell.str "https://lemonde.fr/x")]).date_out
        = strftime_dmy ⟨2023, 2, 1⟩ := by
  decide

/-- C4 counterexample: the claim fails at the cell 2024-03-05.  The
day-first preference makes the parser read the ISO-like string as year,
day, month, so coerce_date yields 2024-05-03, whose DD/MM/YYYY rendering
is 03/05/2024 and not 05/03/2024. -/
theorem c4_iso_date_dayfirst_swap :
    coerce_date (Cell.str "2024-03-05") = Option.some ⟨2024, 5, 3⟩
    ∧ strftime_dmy ⟨2024, 5, 3⟩ = "03/05/2024"
    ∧ ¬ strftime_dmy ⟨2024, 5, 3⟩ = "05/03/2024" := by
  decide

/-- C4 (amended): a cell containing exactly 2024-03-05, parsed with
day-first preference, yields the calendar date 2024-05-03 whose
DD/MM/YYYY rendering is 03/05/2024 (day-first swaps the two trailing
tokens of the ISO-like string); a cell containing the garbage text n/a
yields absent from the Date Normalizer with no error, and the Row
Transformer's date field then equals the trimmed raw text n/a. -/
theorem c4_date_roundtrip_amended :
    coerce_date (Cell.str "2024-03-05") = Option.some ⟨2024, 5, 3⟩
    ∧ (AutoData4.row_fields "media" "url" "date" Option.none Option.none
         [("media", Cell.str "M"), ("date", Cell.str "2024-03-05"),
          ("url", Cell.str "")]).date_out = "03/05/2024"
    ∧ coerce_date (Cell.str " n/a ") = Option.none
    ∧ (AutoData4.row_fields "media" "url" "date" Option.none Option.none
         [("media", Cell.str "M"), ("date", Cell.str " n/a "),
          ("url", Cell.str "")]).date_out = "n/a" := by
  decide

/-- C8: the or-chain of smart_summarize picks exactly the first non-empty
value among content, title, publication, URL, in that order, with the
fixed default phrase when all four are empty or absent: the source
selection coincides with the spec-side selection for every record. -/
theorem c8_context_selection (content title publication : String) (url : Option String) :
    AutoData4.base_context content title publication url
      = spec_context content title publication url := by
  rcases url with _ | u
  · by_cases hc : content = "" <;> by_cases ht : title = "" <;>
      by_cases hp : publication = "" <;>
      simp [AutoData4.base_context, spec_context, AutoData4.pyOrStr, hc, ht, hp]
  · by_cases hc : content = "" <;> by_cases ht : title = "" <;>
      by_cases hp : publication = "" <;> by_cases hu : u = "" <;>
      simp [AutoData4.base_context, spec_context, AutoData4.pyOrStr, hc, ht, hp, hu]

/-- A record whose url went through the NaN-stringification path. -/
def recNanUrl : RecOut :=
  ⟨"Le Monde", "01/02/2023", "Résumé", Option.some "nan"⟩

/-- The same record with an absent url. -/
def recNoUrl : RecOut := ⟨"Le Monde", "01/02/2023", "Résumé", Option.none⟩

/-- A one-row table builder varying only the url cell. -/
def mkUrlRow (u : Cell) : Row :=
  [("media", Cell.str "M"), ("date", Cell.str "x"), ("url", u)]

/-- C10: a NaN url cell is stringified to the non-empty text nan during
transformation, so the record's url field is the text nan rather than
absent, and the renderer emits a hyperlink whose display text and target
are nan; in general the url field is absent exactly when the stripped
stringified cell is empty, and an absent url suppresses the link. -/
theorem c10_nan_url_rendered_as_text :
    (AutoData4.row_fields "media" "url" "date" Option.none Option.none
        [("media", Cell.str "Le Monde"), ("date", Cell.str "01/02/2023"),
         ("url", Cell.na)]).url = Option.some "nan"
    ∧ hasSub ("<a href=\"nan\">nan</a>").data
        (AutoData4.build_email_html [recNanUrl] "T").data = true
    ∧ hasSub ("<a href=").data
        (AutoData4.build_email_html [recNoUrl] "T").data = false
    ∧ (∀ u : Cell,
        (AutoData4.row_fields "media" "url" "date" Option.none Option.none (mkUrlRow u)).url
          = (if pyStrip (toPyStr u) = "" then Option.none
             else Option.some (pyStrip (toPyStr u)))) :=
  ⟨by decide, by decide, by decide, fun _ => rfl⟩

/-- The pandas object store as main sets it up before validation: the
caller's frame lives at id 0 and the next fresh id is 1. -/
def callerStore (df : DataFrame) : PdStore := ⟨1, fun _ => df⟩

/-- C9: validate never mutates its input table.  With the pandas object
store explicit, validating the caller's frame leaves that frame - columns
and every cell - unchanged (the parsed-date column goes to a fresh copy),
and the returned value is that of the pure validate. -/
theorem c9_validate_never_mutates_caller (df : DataFrame) :
    (AutoData4.validate_dataframe_st (callerStore df) 0).1.mem 0 = df
    ∧ (AutoData4.validate_dataframe_st (callerStore df) 0).2
        = AutoData4.validate_dataframe df := by
  constructor
  · simp only [AutoData4.validate_dataframe_st, callerStore]
    repeat' split
    all_goals rfl
  · simp only [AutoData4.validate_dataframe_st, AutoData4.validate_dataframe, callerStore]
    repeat' split
    all_goals rfl

/-- When every external call fails, the fallback makes the summary the
title value, or the placeholder when it is empty. -/
theorem summarize_with_fallback_of_fail (call : String → Except String String)
    (hfail : ∀ p, (call p).isOk = false) (pr : AutoData4.PreRec) :
    AutoData4.summarize_with_fallback call pr
      = if pr.title_val = "" then "Résumé indisponible" else pr.title_val := by
  unfold AutoData4.summarize_with_fallback AutoData4.smart_summarize
  cases hcall : call (AutoData4.smart_summarize_prompt pr.publication pr.title_val
      pr.content_val pr.url 60) with
  | ok s =>
      have h := hfail (AutoData4.smart_summarize_prompt pr.publication pr.title_val
        pr.content_val pr.url 60)
      rw [hcall] at h
      simp [Except.isOk, Except.toBool] at h
  | error e => simp [hcall, Except.map]

/-- C6: if the external summarizer call fails on every prompt, the main
loop still emits one record per input row, in order, and each record's
summary is the transformed title value, or the fixed placeholder when
that title is empty; nothing aborts. -/
theorem c6_summarizer_failure_fallback
    (call : String → Except String String)
    (hfail : ∀ p, (call p).isOk = false)
    (pub_col url_col date_col : String) (title_col content_col : Option String)
    (rows : List Row) :
    AutoData4.process_rows call pub_col url_col date_col title_col content_col rows
      = rows.map (fun r =>
          let pr := AutoData4.row_fields pub_col url_col date_col title_col content_col r
          { publication := pr.publication, date := pr.date_out,
            summary := if pr.title_val = "" then "Résumé indisponible" else pr.title_val,
            url := pr.url }) := by
  unfold AutoData4.process_rows
  apply List.map_congr_left
  intro r _
  simp only [summarize_with_fallback_of_fail call hfail]

/-- A summarizer stub that always fails. -/
def failCall : String → Except String String := fun _ => Except.error "API error"

/-- Witness for C6 on the sample table with the always-failing stub. -/
theorem c6_summarizer_failure_fallback_witness :
    (∀ p, (failCall p).isOk = false)
    ∧ AutoData4.process_rows failCall "media" "url" "date" Option.none Option.none dfSample.rows
        = dfSample.rows.map (fun r =>
            let pr := AutoData4.row_fields "media" "url" "date" Option.none Option.none r
            { publication := pr.publication, date := pr.date_out,
              summary := if pr.title_val = "" then "Résumé indisponible" else pr.title_val,
              url := pr.url }) :=
  ⟨fun _ => rfl,
   c6_summarizer_failure_fallback failCall (fun _ => rfl) "media" "url" "date"
     Option.none Option.none dfSample.rows⟩

/-- Lookup in the normalized-header dict, seen through the normalizer: it
succeeds exactly when some header has the wanted normal form, and the
found header normalizes to that form. -/
theorem dictLookupLast_map_norm (norm : String → String) (cols : List String) (k : String) :
    Option.map norm (dictLookupLast norm cols k)
      = if k ∈ cols.map norm then Option.some k else Option.none := by
  induction cols with
  | nil => simp [dictLookupLast]
  | cons c rest ih =>
      unfold dictLookupLast
      cases hrec : dictLookupLast norm rest k with
      | none =>
          rw [hrec] at ih
          simp only [Option.map_none'] at ih
          have hmem : k ∉ List.map norm rest := by
            intro hk
            rw [if_pos hk] at ih
            exact Option.noConfusion ih
          by_cases hc : norm c = k
          · simp [hc, hmem]
          · simp [hc, hmem, Ne.symm hc]
      | some hh =>
          rw [hrec] at ih
          simp only [Option.map_some'] at ih
          by_cases hmem : k ∈ List.map norm rest
          · rw [if_pos hmem] at ih
            have hnh : norm hh = k := Option.some.inj ih
            simp [List.mem_cons, hmem, hnh]
          · rw [if_neg hmem] at ih
            exact absurd ih (Option.noConfusion)

/-- C2 (amended): the cloud resolver is invariant under case, diacritics
and surrounding whitespace: whenever two header lists agree pointwise up
to normalization, find_col resolves any candidate list to headers with the
same normal form (in particular it succeeds on one list iff it succeeds on
the other); and the headers Média, MEDIA and the space-padded media all
resolve against the candidate media. -/
theorem c2_cloud_resolver_invariant (cols1 cols2 cands : List String)
    (h : cols1.map Cloud.normalize_colname = cols2.map Cloud.normalize_colname) :
    Option.map Cloud.normalize_colname (Cloud.find_col cols1 cands)
      = Option.map Cloud.normalize_colname (Cloud.find_col cols2 cands)
    ∧ (Cloud.find_col ["Média"] ["media"] = Option.some "Média"
       ∧ Cloud.find_col ["MEDIA"] ["media"] = Option.some "MEDIA"
       ∧ Cloud.find_col [" media "] ["media"] = Option.some " media ") := by
  constructor
  · induction cands with
    | nil => rfl
    | cons cd rest ih =>
        unfold Cloud.find_col at ih ⊢
        simp only [List.findSome?_cons]
        have h1 := dictLookupLast_map_norm Cloud.normalize_colname cols1
          (Cloud.normalize_colname cd)
        have h2 := dictLookupLast_map_norm Cloud.normalize_colname cols2
          (Cloud.normalize_colname cd)
        rw [h] at h1
        have h12 := h1.trans h2.symm
        cases e1 : dictLookupLast Cloud.normalize_colname cols1 (Cloud.normalize_colname cd) with
        | some a =>
            cases e2 : dictLookupLast Cloud.normalize_colname cols2 (Cloud.normalize_colname cd) with
            | some b =>
                rw [e1, e2] at h12
                simpa using h12
            | none =>
                rw [e1, e2] at h12
                simp at h12
        | none =>
            cases e2 : dictLookupLast Cloud.normalize_colname cols2 (Cloud.normalize_colname cd) with
            | some b =>
                rw [e1, e2] at h12
                simp at h12
            | none => exact ih
  · exact ⟨by decide, by decide, by decide⟩

/-- Witness for C2 at two headers differing only by case, accent and
surrounding whitespace. -/
theorem c2_cloud_resolver_invariant_witness :
    (["Média"].map Cloud.normalize_colname = [" media "].map Cloud.normalize_colname)
    ∧ (Option.map Cloud.normalize_colname (Cloud.find_col ["Média"] ["media"])
         = Option.map Cloud.normalize_colname (Cloud.find_col [" media "] ["media"])
       ∧ (Cloud.find_col ["Média"] ["media"] = Option.some "Média"
          ∧ Cloud.find_col ["MEDIA"] ["media"] = Option.some "MEDIA"
          ∧ Cloud.find_col [" media "] ["media"] = Option.some " media ")) :=
  ⟨by decide, c2_cloud_resolver_invariant ["Média"] [" media "] ["media"] (by decide)⟩

/-- C2 counterexample: the batch resolver of Auto_Data4.py is not
invariant under accents or whitespace: the headers Média and MEDIA differ
only by case and accent (their full normal forms coincide), yet find_col
of Auto_Data4.py resolves the candidate media against MEDIA and fails
against Média, because it only lower-cases. -/
theorem c2_autodata4_resolver_accent_sensitive :
    Cloud.normalize_colname "Média" = Cloud.normalize_colname "MEDIA"
    ∧ AutoData4.find_col ["Média"] ["media"] = Option.none
    ∧ AutoData4.find_col ["MEDIA"] ["media"] = Option.some "MEDIA" := by
  decide

/-- A table with fixed non-blank publication cells and unparseable date
cells, varying only the url column. -/
def mkUrlDf (us : List Cell) : DataFrame := ⟨["media", "date", "url"], us.map mkUrlRow⟩

/-- The rows of that table after validate attached the parsed-date column
to its copy. -/
def mkUrlRow2 (u : Cell) : Row :=
  [("media", Cell.str "M"), ("date", Cell.str "x"), ("url", u),
   ("_parsed_date", Cell.pynone)]

/-- The spec-side description of the URL check: the spreadsheet-style
numbers (0-based position plus 2) of the url cells that are truthy under
Python yet fail the URL-syntax check.  Blank strings and None are falsy
and skipped; the NaN missing marker is truthy and is checked as the text
nan. -/
def spec_flagged_rows (us : List Cell) : List Nat :=
  (pyEnum us).filterMap
    (fun p => if pyTruthy p.2 && !validators_url (toPyStr p.2)
              then Option.some (p.1 + 2) else Option.none)

/-- Zipping two maps of the same list is a map of the combined function. -/
theorem zipWith_map_same (g : β → γ → δ) (f1 : α → β) (f2 : α → γ) :
    ∀ l : List α, List.zipWith g (l.map f1) (l.map f2) = l.map (fun a => g (f1 a) (f2 a))
  | [] => rfl
  | a :: t => by simp only [List.map_cons, List.zipWith_cons_cons, zipWith_map_same g f1 f2 t]

/-- Attaching the parsed-date column to the url-table rows. -/
theorem mkUrlDf_rows2 (us : List Cell) :
    List.zipWith (fun r v => Row.set r "_parsed_date" v) (us.map mkUrlRow)
      ((us.map mkUrlRow).map (fun r => parsedCell (Row.get r "date" Cell.na)))
      = us.map mkUrlRow2 := by
  rw [List.map_map, zipWith_map_same]
  exact List.map_congr_left (fun u _ => rfl)

/-- No url-table row has a blank publication cell. -/
theorem mkUrlDf_no_blank_pub (us : List Cell) :
    (us.map mkUrlRow2).filter
      (fun r => pyStrip (toPyStr (Row.get r "media" Cell.na)) == "") = [] := by
  have hp : ∀ u : Cell,
      (pyStrip (toPyStr (Row.get (mkUrlRow2 u) "media" Cell.na)) == "") = false :=
    fun _ => rfl
  induction us with
  | nil => rfl
  | cons u t ih => simp [List.filter_cons, hp, ih]

/-- Reading the url column back from the extended rows gives the cells. -/
theorem mkUrlDf_url_cells (us : List Cell) :
    (us.map mkUrlRow2).map (fun r => Row.get r "url" Cell.na) = us := by
  have hu : ∀ u : Cell, Row.get (mkUrlRow2 u) "url" Cell.na = u := fun _ => rfl
  induction us with
  | nil => rfl
  | cons u t ih => simp [hu, ih]

/-- The row-level checks on the url table: no blank-publication issue, and
exactly the spec-side flagged rows aggregated into one URL issue. -/
theorem validateTail_mkUrlDf (us : List Cell) (issues2 : List String)
    (cm : List (String × String)) (content_col title_col : Option String) :
    AutoData4.validateTail (mkUrlDf us) issues2 cm content_col title_col
        "media" "date" "url"
      = ⟨issues2 ++ (if spec_flagged_rows us = [] then []
            else [AutoData4.invalidUrlMsg (spec_flagged_rows us)]),
         Option.some cm, content_col, title_col⟩ := by
  unfold AutoData4.validateTail
  simp only [DataFrame.copy, DataFrame.setCol, mkUrlDf]
  rw [mkUrlDf_rows2, mkUrlDf_no_blank_pub, mkUrlDf_url_cells]
  simp [spec_flagged_rows]

/-- C5 (amended): URL validation checks exactly the Python-truthy URL
cells: for every url column, validate succeeds and reports - besides the
two optional-column warnings - one single aggregated issue listing the
+2-offset row numbers of the truthy cells that fail the URL-syntax check,
and no issue when there are none.  Blank strings and None are falsy and
skipped, but the NaN missing marker is truthy (stringified to nan) and is
checked; the value not a url is flagged and https://example.com/a is
not. -/
theorem c5_url_check_semantics (us : List Cell) :
    AutoData4.validate_dataframe (mkUrlDf us)
      = Except.ok ⟨[AutoData4.warnContentMsg, AutoData4.warnTitleMsg]
            ++ (if spec_flagged_rows us = [] then []
                else [AutoData4.invalidUrlMsg (spec_flagged_rows us)]),
          Option.some [("publication", "media"), ("published", "date"), ("URL", "url")],
          Option.none, Option.none⟩
    ∧ validators_url "not a url" = false
    ∧ validators_url "https://example.com/a" = true
    ∧ (pyTruthy Cell.na = true ∧ toPyStr Cell.na = "nan") := by
  refine ⟨?_, by decide, by decide, by decide, by decide⟩
  have hv : AutoData4.validate_dataframe (mkUrlDf us)
      = Except.ok (AutoData4.validateTail (mkUrlDf us)
          [AutoData4.warnContentMsg, AutoData4.warnTitleMsg]
          [("publication", "media"), ("published", "date"), ("URL", "url")]
          Option.none Option.none "media" "date" "url") := rfl
  rw [hv, validateTail_mkUrlDf]

/-- C5 counterexample: a missing URL cell is not skipped.  The NaN marker
is the dataset's missing value, yet it is truthy, stringified to nan, and
flagged as an invalid URL at spreadsheet row 2. -/
theorem c5_nan_url_cell_flagged :
    pd_isna Cell.na = true
    ∧ AutoData4.validate_dataframe (mkUrlDf [Cell.na])
        = Except.ok ⟨[AutoData4.warnContentMsg, AutoData4.warnTitleMsg,
              "URLs invalides aux lignes [2]"],
            Option.some [("publication", "media"), ("published", "date"), ("URL", "url")],
            Option.none, Option.none⟩ := by
  decide

/-- String append acts as append on the character lists. -/
theorem str_data_append (s t : String) : (s ++ t).data = s.data ++ t.data := by
  cases s
  cases t
  rfl

/-- A list without the character < has no lt-s adjacency. -/
theorem noLtS_of_not_lt : ∀ {l : List Char}, '<' ∉ l → noLtS l = true := by
  intro l
  induction l with
  | nil => intro _; rfl
  | cons a t ih =>
      intro h
      cases t with
      | nil => rfl
      | cons b t2 =>
          have ha : (a == '<') = false := by
            simp only [beq_eq_false_iff_ne, ne_eq]
            intro e
            exact h (by simp [e])
          have ht : noLtS (b :: t2) = true :=
            ih (fun hm => h (List.mem_cons_of_mem a hm))
          simp [noLtS, ha, ht]

/-- A list without the character < does not end in it. -/
theorem lastIsLt_of_not_lt : ∀ {l : List Char}, '<' ∉ l → lastIsLt l = false := by
  intro l
  induction l with
  | nil => intro _; rfl
  | cons a t ih =>
      intro h
      cases t with
      | nil =>
          simp only [lastIsLt, beq_eq_false_iff_ne, ne_eq]
          intro e
          exact h (by simp [e])
      | cons b t2 => exact ih (fun hm => h (List.mem_cons_of_mem a hm))

/-- A list without the character < is rendering-safe. -/
theorem safeB_of_not_lt {l : List Char} (h : '<' ∉ l) : safeB l = true := by
  simp [safeB, noLtS_of_not_lt h, lastIsLt_of_not_lt h]

/-- Safety is preserved by concatenation. -/
theorem safeB_append : ∀ {x y : List Char},
    safeB x = true → safeB y = true → safeB (x ++ y) = true := by
  intro x
  induction x with
  | nil =>
      intro y _ hy
      simpa using hy
  | cons a t ih =>
      intro y hx hy
      cases t with
      | nil =>
          have ha : (a == '<') = false := by
            simpa [safeB, noLtS, lastIsLt] using hx
          cases y with
          | nil => simpa using hx
          | cons b ys =>
              have hy2 := hy
              simp only [safeB, Bool.and_eq_true] at hy2
              have hlast : lastIsLt (b :: ys) = false := by
                simpa using hy2.2
              simp only [List.cons_append, List.nil_append, safeB, Bool.and_eq_true]
              constructor
              · simp [noLtS, ha, hy2.1]
              · simp [lastIsLt, hlast]
      | cons b t2 =>
          have hx2 := hx
          simp only [safeB, noLtS, Bool.and_eq_true] at hx2
          have hbt : safeB (b :: t2) = true := by
            simp only [safeB, Bool.and_eq_true]
            exact ⟨hx2.1.2, by simpa [lastIsLt] using hx2.2⟩
          have hrest := ih (y := y) hbt hy
          simp only [safeB, Bool.and_eq_true] at hrest
          simp only [List.cons_append, safeB, Bool.and_eq_true]
          constructor
          · simp only [List.cons_append] at hrest
            simp [noLtS, hx2.1.1, hrest.1]
          · simpa [lastIsLt] using hrest.2

/-- Escaping one character never produces the character <. -/
theorem escChar_not_lt (c : Char) : '<' ∉ AutoData4.escChar c := by
  unfold AutoData4.escChar
  split_ifs with h1 h2 h3 h4 h5
  · decide
  · decide
  · decide
  · decide
  · decide
  · simp only [List.mem_singleton]
    intro e
    exact h2 e.symm

/-- The escaped form of any string has no raw <. -/
theorem html_escape_not_lt (s : String) : '<' ∉ (AutoData4.html_escape s).data := by
  show '<' ∉ (s.data.map AutoData4.escChar).flatten
  intro hm
  rcases List.mem_flatten.1 hm with ⟨part, hpart, hcm⟩
  rcases List.mem_map.1 hpart with ⟨c, _, rfl⟩
  exact escChar_not_lt c hcm

/-- The escaped form of any string is rendering-safe. -/
theorem html_escape_safe (s : String) : safeB (AutoData4.html_escape s).data = true :=
  safeB_of_not_lt (html_escape_not_lt s)

/-- Joining safe parts with a newline keeps safety. -/
theorem safeB_pyJoin : ∀ (parts : List String),
    (∀ p ∈ parts, safeB p.data = true) → safeB (pyJoin "\n" parts).data = true
  | [], _ => by decide
  | [s], h => h s (List.mem_singleton.2 rfl)
  | s :: s2 :: t, h => by
      show safeB ((s ++ "\n" ++ pyJoin "\n" (s2 :: t)).data) = true
      rw [str_data_append, str_data_append]
      refine safeB_append (safeB_append ?_ (by decide)) ?_
      · exact h s (by simp)
      · exact safeB_pyJoin (s2 :: t) (fun p hp => h p (by simp [hp]))

/-- Every part emitted for one record is rendering-safe. -/
theorem cardParts_safe (r : RecOut) : ∀ p ∈ AutoData4.cardParts r, safeB p.data = true := by
  intro p hp
  unfold AutoData4.cardParts at hp
  simp only [List.append_assoc, List.cons_append, List.nil_append, List.mem_cons] at hp
  rcases hp with rfl | rfl | rfl | rfl | hp
  · decide
  · rw [str_data_append, str_data_append]
    exact safeB_append (safeB_append (by decide) (html_escape_safe _)) (by decide)
  · rw [str_data_append, str_data_append]
    exact safeB_append (safeB_append (by decide) (html_escape_safe _)) (by decide)
  · rw [str_data_append, str_data_append]
    exact safeB_append (safeB_append (by decide) (html_escape_safe _)) (by decide)
  · rcases hu : r.url with _ | u
    · rw [hu] at hp
      simp only [List.mem_append, List.not_mem_nil, false_or, List.mem_cons,
        List.not_mem_nil, or_false] at hp
      rcases hp with rfl
      decide
    · rw [hu] at hp
      by_cases hue : u = ""
      · simp only [hue, eq_self_iff_true, if_true, List.nil_append, List.mem_cons,
          List.not_mem_nil, or_false] at hp
        rcases hp with rfl
        decide
      · simp only [if_neg hue, List.cons_append, List.nil_append, List.mem_cons,
          List.not_mem_nil, or_false] at hp
        rcases hp with rfl | rfl
        · rw [str_data_append, str_data_append, str_data_append, str_data_append]
          refine safeB_append (safeB_append (safeB_append (safeB_append
            (by decide) (html_escape_safe _)) (by decide)) (html_escape_safe _)) (by decide)
        · decide

/-- The whole rendered fragment is rendering-safe. -/
theorem build_email_html_safe (rows : List RecOut) (title : String) :
    safeB (AutoData4.build_email_html rows title).data = true := by
  unfold AutoData4.build_email_html
  apply safeB_pyJoin
  intro p hp
  simp only [List.append_assoc, List.cons_append, List.nil_append, List.mem_cons,
    List.mem_append, List.mem_flatten, List.mem_map, List.not_mem_nil, or_false] at hp
  rcases hp with rfl | rfl | hp
  · decide
  · rw [str_data_append]
    exact safeB_append (safeB_append (by decide) (html_escape_safe _)) (by decide)
  · rcases hp with ⟨part, ⟨r, _, rfl⟩, hmem⟩ | rfl
    · exact cardParts_safe r p hmem
    · decide

/-- Both components of a true Bool conjunction. -/
theorem bandElim {a b : Bool} (h : (a && b) = true) : a = true ∧ b = true := by
  cases a <;> cases b <;> simp_all

/-- A list with no lt-s adjacency cannot contain the substring script in
angle brackets, since that substring starts with < immediately followed
by s. -/
theorem hasSub_script_eq_false : ∀ {l : List Char}, noLtS l = true →
    hasSub ("<script>".data) l = false := by
  intro l
  induction l with
  | nil => intro _; decide
  | cons c t ih =>
      intro h
      have htail : noLtS t = true := by
        cases t with
        | nil => rfl
        | cons b t2 => exact (bandElim h).2
      have hrec : hasSub ("<script>".data) t = false := ih htail
      show (List.isPrefixOf ("<script>".data) (c :: t) || hasSub ("<script>".data) t) = false
      rw [hrec, Bool.or_false]
      show (('<' == c) && List.isPrefixOf ("script>".data) t) = false
      cases t with
      | nil =>
          show (('<' == c) && false) = false
          exact Bool.and_false _
      | cons b t2 =>
          have hpair : (c == '<' && b == 's') = false := by
            have h1 := (bandElim h).1
            cases hcb : (c == '<' && b == 's') with
            | false => rfl
            | true => rw [hcb] at h1; exact absurd h1 (by decide)
          show (('<' == c) && (('s' == b) && List.isPrefixOf ("cript>".data) t2)) = false
          by_cases hc : c = '<'
          · subst hc
            have hb : (b == 's') = false := by simpa using hpair
            have hb2 : ('s' == b) = false := by
              rcases beq_eq_false_iff_ne.1 hb with hne
              exact beq_eq_false_iff_ne.2 (fun e => hne e.symm)
            rw [hb2, Bool.false_and, Bool.and_false]
          · have hc2 : ('<' == c) = false := beq_eq_false_iff_ne.2 (fun e => hc e.symm)
            rw [hc2, Bool.false_and]

/-- C7: every user-supplied text field (title, publication, date, summary,
URL) goes through HTML escaping before insertion: for every record
sequence and title, the rendered fragment never contains the raw markup
substring script-in-angle-brackets, while a publication field containing
that markup shows up in the escaped form. -/
theorem c7_user_fields_always_escaped (rows : List RecOut) (title : String) :
    hasSub ("<script>".data) (AutoData4.build_email_html rows title).data = false
    ∧ hasSub ("&lt;script&gt;".data)
        (AutoData4.build_email_html
          [{ publication := "<script>alert(1)</script>", date := "01/02/2023",
             summary := "Résumé", url := Option.none }] "T").data = true := by
  constructor
  · exact hasSub_script_eq_false (bandElim (build_email_html_safe rows title)).1
  · decide
